import Mathlib

/-!
Shallow embedding of the WebRTC connection manager of this repository
(`src/hooks/useWebRTC.ts`): the per-key connection store, the signaling
reconnect policy of `connectSignaling`/`ws.onclose`, the local ICE candidate
buffer and its drain in the `offer` branch of `handleSignalingMessage`, the
heartbeat interval body, the subscriber notification loop of `updateStore`,
the debounced peer-connection state-change handlers, and `cleanup`/`reconnect`.
Each claim about the code is settled by a theorem over these definitions.
-/

namespace VisionWebUI

/-- Connection state of a store entry (`useWebRTC.ts` line 8:
`type ConnectionState = 'idle' | 'connecting' | 'connected' | 'disconnected' | 'failed'`). -/
inductive ConnectionState
  | idle | connecting | connected | disconnected | failed
  deriving DecidableEq

/-- `maxReconnectAttempts = 5` (line 169). -/
def maxReconnectAttempts : Nat := 5

/-- `reconnectDelay = 3000` (line 170), passed unchanged to `setTimeout` in `ws.onclose`. -/
def reconnectDelay : Nat := 3000

/-- The heartbeat interval literal `setInterval(..., 10000)` (line 743). -/
def heartbeatPeriodMs : Nat := 10000

/-- The staleness bound `Date.now() - lastPongTimeRef.current > 30000` (line 735). -/
def pongTimeoutMs : Nat := 30000

/-- The debounce literal `setTimeout(..., 2000)` in the `failed` branch of
`pc.onconnectionstatechange` (line 401). -/
def failedDebounceMs : Nat := 2000

/-- The debounce literal `setTimeout(..., 3000)` in the `disconnected` branch of
`pc.onconnectionstatechange` (line 409). -/
def disconnectedDebounceMs : Nat := 3000

/-- Effect of one run of the `ws.onclose` handler (lines 594-617): either a retry
is scheduled (with the delay passed to `setTimeout`) after incrementing the
attempt counter, or the entry is marked failed with an error and nothing is
scheduled. -/
structure CloseEffect where
  newAttempts : Nat
  retryDelay : Option Nat
  newState : Option ConnectionState
  newError : Option String
  deriving DecidableEq

/-- `ws.onclose` of `connectSignaling` (lines 604-616), mounted case:
`if (reconnectAttempts < maxReconnectAttempts) { attempts++; setTimeout(connectSignaling, reconnectDelay) }
else { state := failed; error := "Max reconnection attempts reached" }`. -/
def wsOnClose (attempts : Nat) : CloseEffect :=
  if attempts < maxReconnectAttempts then
    { newAttempts := attempts + 1
      retryDelay := some reconnectDelay
      newState := none
      newError := none }
  else
    { newAttempts := attempts
      retryDelay := none
      newState := some ConnectionState.failed
      newError := some "Max reconnection attempts reached" }

/-- Context read by one tick of the heartbeat interval. -/
structure HbCtx where
  mounted : Bool
  wsOpen : Bool
  broadcasterId : Option String
  now : Nat
  lastPongTime : Nat
  deriving DecidableEq

/-- What one heartbeat tick does. -/
inductive HbAction
  | noAction
  | reconnectNow
  | sendPing (fromId toId : String)
  deriving DecidableEq

/-- Body of the 10-second heartbeat interval started in the `offer` branch
(lines 731-743): if mounted, the socket is open and the broadcaster id is
known, trigger a reconnect when no pong was recorded for more than 30s,
otherwise send `ping` with `from := viewer_id`, `to := broadcasterId`. -/
def heartbeatTick (viewerId : String) (c : HbCtx) : HbAction :=
  if c.mounted = false then HbAction.noAction
  else
    match c.broadcasterId with
    | some b =>
        if c.wsOpen then
          if pongTimeoutMs < c.now - c.lastPongTime then HbAction.reconnectNow
          else HbAction.sendPing viewerId b
        else HbAction.noAction
    | none => HbAction.noAction

/-- The `pong` branch of `ws.onmessage` (lines 643-648): record the pong time. -/
def onPongMsg (now : Nat) (c : HbCtx) : HbCtx := { c with lastPongTime := now }

/-- Result of session negotiation while processing an offer: either all awaited
steps succeed, or one of them (e.g. `setRemoteDescription` on malformed SDP)
raises. -/
inductive NegotiationOutcome
  | success
  | sdpFailure (msg : String)
  deriving DecidableEq

/-- Observable effects of the `offer` branch of `handleSignalingMessage`
(lines 670-764). -/
structure OfferOutcome where
  broadcasterIdSet : Option String
  errorSurfaced : Option String
  newState : Option ConnectionState
  answerSent : Bool
  heartbeatStarted : Bool
  reconnectInvoked : Bool
  deriving DecidableEq

/-- The `offer` branch of `handleSignalingMessage`: `broadcasterId := from` is
always set (line 671); on success the answer is sent, the heartbeat started and
the queue flushed; the catch block (lines 760-764) runs
`updateStore({ error: "Failed to process offer: " + msg, connectionState: 'failed' })`.
Neither branch calls `reconnect()`. -/
def processOffer (fromB : String) (neg : NegotiationOutcome) : OfferOutcome :=
  match neg with
  | NegotiationOutcome.success =>
      { broadcasterIdSet := some fromB
        errorSurfaced := none
        newState := none
        answerSent := true
        heartbeatStarted := true
        reconnectInvoked := false }
  | NegotiationOutcome.sdpFailure m =>
      { broadcasterIdSet := some fromB
        errorSurfaced := some ("Failed to process offer: " ++ m)
        newState := some ConnectionState.failed
        answerSent := false
        heartbeatStarted := false
        reconnectInvoked := false }

/-- The notification loop of `updateStore` (lines 163-166):
`storeEntry.subscribers.forEach(cb => cb(state, stream, error))`.
Subscribers are `(id, raises)` pairs in iteration order; `raises = true` means
the callback throws when invoked.  `forEach` does not catch, so a thrown
exception ends the iteration.  Returns the ids whose callback was invoked with
the change, and the id of the subscriber that threw, if any. -/
def notifyAll : List (Nat × Bool) → List Nat × Option Nat
  | [] => ([], none)
  | (i, raises) :: rest =>
    if raises then ([i], some i)
    else
      let r := notifyAll rest
      (i :: r.1, r.2)

/-- The fields of a store entry touched by `cleanup`, `reconnect` and
`ws.onopen`. -/
structure EntrySlice where
  reconnectAttempts : Nat
  connectionState : ConnectionState
  error : Option String
  broadcasterId : Option String
  localCandidateQueueLen : Nat
  deriving DecidableEq

/-- `cleanup` (lines 179-240): returns immediately for persistent entries;
otherwise it closes the socket and session and resets the entry
(lines 232-239), in particular `reconnectAttempts := 0`. -/
def cleanup (isPersistentE : Bool) (e : EntrySlice) : EntrySlice :=
  if isPersistentE then e
  else
    { reconnectAttempts := 0
      connectionState := ConnectionState.idle
      error := none
      broadcasterId := none
      localCandidateQueueLen := 0 }

/-- `reconnect` (lines 810-823): `cleanup()`, then 500ms later
`createPeerConnection(); connectSignaling()` (which sets state `connecting`).
For persistent entries `cleanup` sets `isMountedRef.current = false`, so the
guard of the delayed body fails and nothing further happens. -/
def reconnectCycle (isPersistentE : Bool) (e : EntrySlice) : EntrySlice :=
  let e1 := cleanup isPersistentE e
  if isPersistentE then e1
  else { e1 with connectionState := ConnectionState.connecting }

/-- `ws.onopen` (lines 581-592):
`updateStore({ reconnectAttempts: 0, connectionState: 'connecting' })`. -/
def wsOnOpen (e : EntrySlice) : EntrySlice :=
  { e with reconnectAttempts := 0, connectionState := ConnectionState.connecting }

/-- A store entry as observed by consumers (state, media handle, error,
subscriber set); media stream and subscribers are abstracted by ids. -/
structure Entry where
  connectionState : ConnectionState
  videoStream : Option Nat
  error : Option String
  subscribers : List Nat
  deriving DecidableEq

/-- The fresh entry created by `getStoreEntry` (lines 49-63). -/
def initialEntry : Entry :=
  { connectionState := ConnectionState.idle
    videoStream := none
    error := none
    subscribers := [] }

/-- `const storeKey = cameraId || 'temp'` (line 43); JS `||` treats the empty
string as falsy. -/
def storeKey (cameraId : Option String) : String :=
  match cameraId with
  | some s => if s = "" then "temp" else s
  | none => "temp"

/-- `const isPersistent = !!cameraId` (line 44). -/
def isPersistent (cameraId : Option String) : Bool :=
  match cameraId with
  | some s => if s = "" then false else true
  | none => false

/-- Association-list lookup in the module-level `connectionStore` map. -/
def lookupEntry : List (String × Entry) → String → Option Entry
  | [], _ => none
  | (k, e) :: rest, key => if k = key then some e else lookupEntry rest key

/-- `getStoreEntry` (lines 47-66): create the entry for a key on first use,
otherwise leave the store unchanged. -/
def getStoreEntry (store : List (String × Entry)) (key : String) : List (String × Entry) :=
  match lookupEntry store key with
  | some _ => store
  | none => (key, initialEntry) :: store

/-- A mutation performed through `updateStore` by any consumer holding a key:
the entry stored under that key is updated in place. -/
def mutateEntry : List (String × Entry) → String → (Entry → Entry) → List (String × Entry)
  | [], _, _ => []
  | (k, e) :: rest, key, f =>
      if k = key then (k, f e) :: mutateEntry rest key f
      else (k, e) :: mutateEntry rest key f

/-- A message built by `pc.onicecandidate` (lines 537-546):
`{ type: 'ice', from: viewer_id, to: broadcasterId | null, candidate }`.
The candidate payload is abstract; `cand = none` models the empty `{}` payload
sent when local gathering completes. -/
structure IceMsg (α : Type) where
  typ : String
  fromId : String
  toId : Option String
  cand : Option α
  deriving DecidableEq

/-- Builds the `payload` object of `pc.onicecandidate`. -/
def mkIceMsg (viewerId : String) (toId : Option String) (cand : Option α) : IceMsg α :=
  { typ := "ice", fromId := viewerId, toId := toId, cand := cand }

/-- The candidate-related fields of a store entry. -/
structure ViewerSt (α : Type) where
  broadcasterId : Option String
  localCandidateQueue : List (IceMsg α)
  sent : List (IceMsg α)
  deriving DecidableEq

/-- Initial candidate state: no broadcaster id, empty queue, nothing sent. -/
def initViewer (α : Type) : ViewerSt α :=
  { broadcasterId := none, localCandidateQueue := [], sent := [] }

/-- `pc.onicecandidate` (lines 537-560): build the payload; if the broadcaster
id is unknown, append it to `localCandidateQueue`; otherwise send it directly
when the socket is open (and drop it with a warning when it is not). -/
def onIceCandidate (viewerId : String) (wsOpen : Bool) (s : ViewerSt α) (c : Option α) :
    ViewerSt α :=
  let payload := mkIceMsg viewerId s.broadcasterId c
  match s.broadcasterId with
  | none => { s with localCandidateQueue := s.localCandidateQueue ++ [payload] }
  | some _ => if wsOpen then { s with sent := s.sent ++ [payload] } else s

/-- The drain loop of the `offer` branch (lines 746-759): shift each queued
message, stamp `cmsg.to := broadcasterId`, and send it when the socket is open.
The loop is synchronous, so the socket state cannot change during it. -/
def flushLoop (bId : Option String) (wsOpen : Bool) : List (IceMsg α) → List (IceMsg α)
  | [] => []
  | p :: rest => (if wsOpen then [{ p with toId := bId }] else []) ++ flushLoop bId wsOpen rest

/-- The candidate-related effect of the `offer` branch of
`handleSignalingMessage`: `broadcasterId := from` is set unconditionally at
line 671, before the `try` block; the queue drain (lines 746-759) is the last
statement of the `try` block, after the awaited
`setRemoteDescription`/`createAnswer`/`setLocalDescription` steps, so it runs
only when negotiation succeeds — when negotiation throws, the catch at
line 760 is taken and the queue is left untouched. -/
def onOffer (fromB : String) (neg : NegotiationOutcome) (wsOpen : Bool) (s : ViewerSt α) :
    ViewerSt α :=
  let s1 := { s with broadcasterId := some fromB }
  match neg with
  | NegotiationOutcome.success =>
      { s1 with localCandidateQueue := []
                sent := s1.sent ++ flushLoop (some fromB) wsOpen s1.localCandidateQueue }
  | NegotiationOutcome.sdpFailure _ => s1

/-- Events driving the candidate machinery of one session; an offer carries
the outcome of the negotiation it triggers. -/
inductive ViewerEvent (α : Type)
  | localCandidate (c : Option α)
  | offer (fromB : String) (neg : NegotiationOutcome)

/-- One event step of the candidate machinery. -/
def stepViewer (viewerId : String) (wsOpen : Bool) (s : ViewerSt α) :
    ViewerEvent α → ViewerSt α
  | ViewerEvent.localCandidate c => onIceCandidate viewerId wsOpen s c
  | ViewerEvent.offer b neg => onOffer b neg wsOpen s

/-- Run of the candidate machinery over a list of events. -/
def runViewer (viewerId : String) (wsOpen : Bool) (s : ViewerSt α)
    (es : List (ViewerEvent α)) : ViewerSt α :=
  es.foldl (stepViewer viewerId wsOpen) s

/-- A run in which one candidate is buffered, then the offer arrives but its
negotiation fails on a malformed SDP, then another local candidate is
generated. -/
def c3FailTrace : ViewerSt Nat :=
  runViewer "v1" true (initViewer Nat)
    [ViewerEvent.localCandidate (some 0),
     ViewerEvent.offer "b1" (NegotiationOutcome.sdpFailure "malformed SDP"),
     ViewerEvent.localCandidate (some 1)]

/-- States of an `RTCPeerConnection.connectionState`. -/
inductive PcState
  | newPc | connectingPc | connectedPc | disconnectedPc | failedPc | closedPc
  deriving DecidableEq

/-- Store/timer effects of one run of `pc.onconnectionstatechange`
(lines 377-414).  `newError = some none` models `error: null`. -/
structure PcChangeEffect where
  newState : Option ConnectionState
  newError : Option (Option String)
  debounceDelay : Option Nat
  deriving DecidableEq

/-- `pc.onconnectionstatechange` (lines 377-414): `failed` sets state failed
with the error string and schedules a guarded reconnect check after 2000ms,
`disconnected` schedules one after 3000ms, `connected` clears the error,
`closed` returns the entry to idle. -/
def onConnectionStateChange (mounted : Bool) (st : PcState) : PcChangeEffect :=
  if mounted = false then { newState := none, newError := none, debounceDelay := none }
  else
    match st with
    | PcState.connectedPc =>
        { newState := some ConnectionState.connected, newError := some none
          debounceDelay := none }
    | PcState.connectingPc =>
        { newState := some ConnectionState.connecting, newError := none, debounceDelay := none }
    | PcState.failedPc =>
        { newState := some ConnectionState.failed
          newError := some (some "Connection failed")
          debounceDelay := some failedDebounceMs }
    | PcState.disconnectedPc =>
        { newState := some ConnectionState.disconnected, newError := none
          debounceDelay := some disconnectedDebounceMs }
    | PcState.closedPc =>
        { newState := some ConnectionState.idle, newError := none, debounceDelay := none }
    | PcState.newPc => { newState := none, newError := none, debounceDelay := none }

/-- State seen by the debounced checks scheduled by the `failed` branch: the
state of the peer connection they captured, the mount flag, and how many times
`reconnect()` was invoked. -/
structure DebounceRun where
  pcState : PcState
  mounted : Bool
  reconnectRuns : Nat
  deriving DecidableEq

/-- Body of one timer scheduled at line 397-401:
`if (isMountedRef.current && pc.connectionState === 'failed') reconnect()`.
`reconnect()` runs `cleanup`, which closes the captured (non-persistent) peer
connection, so its `connectionState` becomes `'closed'`. -/
def debounceCheck (d : DebounceRun) : DebounceRun :=
  if d.mounted = true ∧ d.pcState = PcState.failedPc then
    { pcState := PcState.closedPc, mounted := d.mounted, reconnectRuns := d.reconnectRuns + 1 }
  else d

/-- Fire `n` pending debounced checks, in scheduling order. -/
def runDebounceChecks (d : DebounceRun) : Nat → DebounceRun
  | 0 => d
  | n + 1 => runDebounceChecks (debounceCheck d) n

/-- Lifecycle status of one WebSocket object. -/
inductive SockStatus
  | connecting | opened | closed
  deriving DecidableEq

/-- Resource model of one connection entry: the closed-flag of every peer
connection ever created for it, the status of every signaling socket ever
created for it, and which of each the entry currently references
(`pcRef`/`storeEntry.pc` and `wsRef`/`storeEntry.ws`). -/
structure ConnModel where
  pcClosed : List Bool
  entryPc : Option Nat
  socks : List SockStatus
  entrySock : Option Nat
  deriving DecidableEq

/-- The entry before any resource is created. -/
def initConn : ConnModel :=
  { pcClosed := [], entryPc := none, socks := [], entrySock := none }

/-- The status of the socket the entry currently references, if any. -/
def entrySockStatus (m : ConnModel) : Option SockStatus :=
  match m.entrySock with
  | some i => m.socks.get? i
  | none => none

/-- The closing prologue of `createPeerConnection` (lines 244-250):
`if (pcRef.current && pcRef.current.connectionState !== 'closed') pcRef.current.close()`. -/
def closeEntryPc (m : ConnModel) : List Bool :=
  match m.entryPc with
  | some i => if m.pcClosed.get? i = some false then m.pcClosed.set i true else m.pcClosed
  | none => m.pcClosed

/-- `createPeerConnection` (lines 243-281): close the referenced non-closed
peer connection, then create a fresh one and point the entry at it. -/
def createPeerConnection (m : ConnModel) : ConnModel :=
  { m with pcClosed := closeEntryPc m ++ [false], entryPc := some (closeEntryPc m).length }

/-- `connectSignaling` (lines 566-579): if the referenced socket is open,
return; otherwise create a fresh socket (initially connecting) and point the
entry at it.  The superseded socket is not touched. -/
def connectSignaling (m : ConnModel) : ConnModel :=
  if entrySockStatus m = some SockStatus.opened then m
  else { m with socks := m.socks ++ [SockStatus.connecting], entrySock := some m.socks.length }

/-- Events acting on the resource model: the two creation routines (invoked
from the main effect, the retry timer and `reconnect`), the asynchronous
open/close transitions of individual sockets, and the non-persistent `cleanup`
(lines 196-219), which closes the referenced socket and peer connection and
nulls both references. -/
inductive ConnEvent
  | createPc
  | connectWs
  | wsOpened (i : Nat)
  | wsClosed (i : Nat)
  | teardown
  deriving DecidableEq

/-- One step of the resource model. -/
def stepConn (m : ConnModel) : ConnEvent → ConnModel
  | ConnEvent.createPc => createPeerConnection m
  | ConnEvent.connectWs => connectSignaling m
  | ConnEvent.wsOpened i =>
      if m.socks.get? i = some SockStatus.connecting
      then { m with socks := m.socks.set i SockStatus.opened } else m
  | ConnEvent.wsClosed i => { m with socks := m.socks.set i SockStatus.closed }
  | ConnEvent.teardown =>
      { pcClosed := closeEntryPc m
        entryPc := none
        socks := (match m.entrySock with
                  | some i => m.socks.set i SockStatus.closed
                  | none => m.socks)
        entrySock := none }

/-- Run of the resource model from the initial entry. -/
def runConn (es : List ConnEvent) : ConnModel :=
  es.foldl stepConn initConn

/-- Uniqueness of the live peer session: any non-closed peer connection of the
entry is the one the entry currently references (hence there is at most one). -/
def PcUnique (m : ConnModel) : Prop :=
  ∀ i, m.pcClosed.get? i = some false → m.entryPc = some i

/-- A model whose entry references an open socket. -/
def c1OpenModel : ConnModel :=
  { pcClosed := [true, false], entryPc := some 1
    socks := [SockStatus.opened], entrySock := some 0 }

/-- A trace of the resource model: the entry connects signaling while its first
socket is still connecting (e.g. the main effect runs again on a remount of a
persistent entry before `ws.onopen` fired), then both sockets finish opening. -/
def c1Trace0 : ConnModel := connectSignaling initConn

/-- Second `connectSignaling` call of the trace. -/
def c1Trace1 : ConnModel := connectSignaling c1Trace0

/-- Both sockets of the trace complete their handshake. -/
def c1Trace2 : ConnModel :=
  stepConn (stepConn c1Trace1 (ConnEvent.wsOpened 0)) (ConnEvent.wsOpened 1)

/-- Full reconnect/debounce system for one non-persistent entry: signaling
retry counter and pending retry timer, entry state and error, the state of
every peer connection generation, pending debounced state-checks, and the
number of `reconnect()` executions. -/
structure SysState where
  reconnectAttempts : Nat
  connState : ConnectionState
  error : Option String
  pcs : List PcState
  curPc : Nat
  wsRetryPending : Bool
  pendingChecks : List (Nat × PcState)
  reconnectRuns : Nat
  deriving DecidableEq

/-- `reconnect()` (lines 810-823) for a mounted, non-persistent entry:
`cleanup` closes the current peer connection and resets counter, state and
error; 500ms later `createPeerConnection` makes a fresh generation and
`connectSignaling` sets state `connecting`. -/
def doReconnect (s : SysState) : SysState :=
  { reconnectAttempts := 0
    connState := ConnectionState.connecting
    error := none
    pcs := s.pcs.set s.curPc PcState.closedPc ++ [PcState.newPc]
    curPc := (s.pcs.set s.curPc PcState.closedPc).length
    wsRetryPending := false
    pendingChecks := s.pendingChecks
    reconnectRuns := s.reconnectRuns + 1 }

/-- Asynchronous happenings of the combined system: the signaling socket
closes, the scheduled signaling retry fires, the current peer connection
reports a state change, a debounced check scheduled by
`pc.onconnectionstatechange` fires, or the caller invokes `reconnect()`. -/
inductive Happening
  | wsClose
  | wsRetryFires
  | pcStateChange (st : PcState)
  | debounceFires (gen : Nat) (expect : PcState)
  | explicitReconnect
  deriving DecidableEq

/-- One happening of the combined system.  `wsClose` follows `ws.onclose`
(lines 604-616); `pcStateChange` follows `pc.onconnectionstatechange`
(lines 377-414), recording the pc generation a scheduled check captured;
`debounceFires` evaluates the guard
`isMountedRef.current && pc.connectionState === 'failed'` (resp.
`'disconnected'`) against the captured generation. -/
def stepSys (s : SysState) : Happening → SysState
  | Happening.wsClose =>
      if s.reconnectAttempts < maxReconnectAttempts then
        { s with reconnectAttempts := s.reconnectAttempts + 1, wsRetryPending := true }
      else
        { s with connState := ConnectionState.failed
                 error := some "Max reconnection attempts reached" }
  | Happening.wsRetryFires =>
      if s.wsRetryPending then
        { s with wsRetryPending := false, connState := ConnectionState.connecting }
      else s
  | Happening.pcStateChange st =>
      let pcs1 := s.pcs.set s.curPc st
      match st with
      | PcState.connectedPc =>
          { s with pcs := pcs1, connState := ConnectionState.connected, error := none }
      | PcState.connectingPc =>
          { s with pcs := pcs1, connState := ConnectionState.connecting }
      | PcState.failedPc =>
          { s with pcs := pcs1
                   connState := ConnectionState.failed
                   error := some "Connection failed"
                   pendingChecks := s.pendingChecks ++ [(s.curPc, PcState.failedPc)] }
      | PcState.disconnectedPc =>
          { s with pcs := pcs1
                   connState := ConnectionState.disconnected
                   pendingChecks := s.pendingChecks ++ [(s.curPc, PcState.disconnectedPc)] }
      | PcState.closedPc =>
          { s with pcs := pcs1, connState := ConnectionState.idle }
      | PcState.newPc => { s with pcs := pcs1 }
  | Happening.debounceFires gen expect =>
      if (gen, expect) ∈ s.pendingChecks then
        let s1 := { s with pendingChecks := s.pendingChecks.erase (gen, expect) }
        if s1.pcs.get? gen = some expect then doReconnect s1 else s1
      else s
  | Happening.explicitReconnect => doReconnect s

/-- Initial state of the combined system: one fresh peer connection, signaling
connecting. -/
def initSys : SysState :=
  { reconnectAttempts := 0
    connState := ConnectionState.connecting
    error := none
    pcs := [PcState.newPc]
    curPc := 0
    wsRetryPending := false
    pendingChecks := []
    reconnectRuns := 0 }

/-- Happenings leading to the terminal failed state: the signaling socket
closes six times (the initial connection and all five scheduled retries fail). -/
def c4Prefix : List Happening :=
  [Happening.pcStateChange PcState.connectedPc,
   Happening.wsClose, Happening.wsRetryFires,
   Happening.wsClose, Happening.wsRetryFires,
   Happening.wsClose, Happening.wsRetryFires,
   Happening.wsClose, Happening.wsRetryFires,
   Happening.wsClose, Happening.wsRetryFires,
   Happening.wsClose]

/-- After the terminal failed state, the peer connection notices the loss of
media, goes `disconnected` then `failed`, and the two debounced checks fire:
the first finds the pc no longer `disconnected`, the second finds it `failed`
and invokes `reconnect()` — with no explicit caller involvement. -/
def c4Full : List Happening :=
  c4Prefix ++
  [Happening.pcStateChange PcState.disconnectedPc,
   Happening.pcStateChange PcState.failedPc,
   Happening.debounceFires 0 PcState.disconnectedPc,
   Happening.debounceFires 0 PcState.failedPc]

/-- The terminal failed state reached when the retry cap is exhausted, with no
peer-connection check pending. -/
def MaxedOut (s : SysState) : Prop :=
  s.reconnectAttempts = maxReconnectAttempts ∧
  s.connState = ConnectionState.failed ∧
  s.error = some "Max reconnection attempts reached" ∧
  s.wsRetryPending = false ∧
  s.pendingChecks = []

/-- A concrete terminal failed state. -/
def c4MaxedState : SysState :=
  { reconnectAttempts := 5
    connState := ConnectionState.failed
    error := some "Max reconnection attempts reached"
    pcs := [PcState.closedPc]
    curPc := 0
    wsRetryPending := false
    pendingChecks := []
    reconnectRuns := 0 }

/-! Theorems.  Helper lemmas come first, then one theorem per claim (with its
counterexample and witness where applicable). -/

theorem lookupEntry_mutate (store : List (String × Entry)) (key : String) (f : Entry → Entry) :
    lookupEntry (mutateEntry store key f) key = Option.map f (lookupEntry store key) := by
  induction store with
  | nil => rfl
  | cons p rest ih =>
      obtain ⟨k, e⟩ := p
      by_cases hk : k = key
      · subst hk
        simp [mutateEntry, lookupEntry]
      · simp [mutateEntry, lookupEntry, hk]
        exact ih

theorem getStoreEntry_keeps (t : List (String × Entry)) (key : String) (e : Entry)
    (h : lookupEntry t key = some e) : getStoreEntry t key = t := by
  simp [getStoreEntry, h]

theorem lookupEntry_getStoreEntry (s : List (String × Entry)) (key : String) :
    ∃ e, lookupEntry (getStoreEntry s key) key = some e := by
  cases h2 : lookupEntry s key with
  | some e => exact ⟨e, by simp [getStoreEntry, h2]⟩
  | none => exact ⟨initialEntry, by simp [getStoreEntry, h2, lookupEntry]⟩

/-- C10: a consumer with no camera id is mapped to the shared store key
`"temp"` and is non-persistent; a second such acquire finds the existing entry
(the store is unchanged), and a mutation made through that key is what any
consumer of the key reads back — all keyless consumers share one entry. -/
theorem c10_temp_key_sharing (store : List (String × Entry)) (f : Entry → Entry) :
    storeKey none = "temp" ∧
    isPersistent none = false ∧
    getStoreEntry (getStoreEntry store (storeKey none)) (storeKey none)
      = getStoreEntry store (storeKey none) ∧
    lookupEntry (mutateEntry (getStoreEntry store (storeKey none)) (storeKey none) f)
        (storeKey none)
      = Option.map f (lookupEntry (getStoreEntry store (storeKey none)) (storeKey none)) := by
  refine ⟨rfl, rfl, ?_, lookupEntry_mutate _ _ _⟩
  obtain ⟨e, he⟩ := lookupEntry_getStoreEntry store (storeKey none)
  exact getStoreEntry_keeps _ _ e he

/-- C2 counterexample: on the close that starts reconnection attempt 2, the
code passes the constant `reconnectDelay = 3000` to `setTimeout`, not
`3000 * 2` as the linear-backoff claim requires. -/
theorem c2_counterexample :
    (wsOnClose 1).newAttempts = 2 ∧
    (wsOnClose 1).retryDelay = some 3000 ∧
    (3000 : Nat) ≠ 3000 * 2 := by
  refine ⟨by decide, by decide, by decide⟩

/-- C2 (amended): every retry after a signaling-link close is scheduled with
the same fixed 3000ms delay, regardless of the attempt number; at most 5
attempts are made (the counter increments up to the cap), and once the cap is
reached the entry enters `failed` with an explicit error and no retry is
scheduled. -/
theorem c2_amended (a : Nat) :
    (a < maxReconnectAttempts →
       (wsOnClose a).retryDelay = some reconnectDelay ∧
       (wsOnClose a).newAttempts = a + 1 ∧
       (wsOnClose a).newState = none ∧
       (wsOnClose a).newError = none) ∧
    (maxReconnectAttempts ≤ a →
       (wsOnClose a).retryDelay = none ∧
       (wsOnClose a).newState = some ConnectionState.failed ∧
       (wsOnClose a).newError = some "Max reconnection attempts reached" ∧
       (wsOnClose a).newAttempts = a) := by
  constructor
  · intro h
    simp [wsOnClose, h]
  · intro h
    simp [wsOnClose, Nat.not_lt.mpr h]

/-- Witness for `c2_amended` at attempt counters 2 and 5. -/
theorem c2_amended_witness :
    (wsOnClose 2).retryDelay = some reconnectDelay ∧
    (wsOnClose 5).newState = some ConnectionState.failed :=
  ⟨((c2_amended 2).1 (by decide)).1, ((c2_amended 5).2 (by decide)).2.1⟩

/-- C5: the heartbeat interval is 10000ms; on a tick with the component
mounted, the socket open and the broadcaster id known, a reconnect is
triggered whenever more than 30000ms passed since the last recorded pong —
even though the transport reports itself open — and otherwise a `ping`
addressed to the known remote peer id is sent; a `pong` message records its
arrival time. -/
theorem c5_heartbeat (viewerId b : String) (c : HbCtx) (t : Nat)
    (hm : c.mounted = true) (hw : c.wsOpen = true) (hb : c.broadcasterId = some b) :
    heartbeatPeriodMs = 10000 ∧
    (pongTimeoutMs < c.now - c.lastPongTime → heartbeatTick viewerId c = HbAction.reconnectNow) ∧
    (c.now - c.lastPongTime ≤ pongTimeoutMs →
       heartbeatTick viewerId c = HbAction.sendPing viewerId b) ∧
    (onPongMsg t c).lastPongTime = t := by
  refine ⟨rfl, ?_, ?_, rfl⟩
  · intro h
    simp [heartbeatTick, hm, hw, hb, h]
  · intro h
    simp [heartbeatTick, hm, hw, hb, Nat.not_lt.mpr h]

/-- Witness for `c5_heartbeat`: a stale tick reconnects, a fresh tick pings. -/
theorem c5_heartbeat_witness :
    heartbeatTick "v1"
      { mounted := true, wsOpen := true, broadcasterId := some "b1"
        now := 40000, lastPongTime := 0 } = HbAction.reconnectNow ∧
    heartbeatTick "v1"
      { mounted := true, wsOpen := true, broadcasterId := some "b1"
        now := 20000, lastPongTime := 0 } = HbAction.sendPing "v1" "b1" :=
  ⟨(c5_heartbeat "v1" "b1" _ 0 rfl rfl rfl).2.1 (by decide),
   (c5_heartbeat "v1" "b1" _ 0 rfl rfl rfl).2.2.1 (by decide)⟩

/-- C6 counterexample: on a malformed SDP the offer branch surfaces the error
string and sets the state to `failed`, but `reconnect()` is not invoked — the
catch block at lines 760-764 only calls `updateStore`. -/
theorem c6_counterexample :
    (processOffer "b1" (NegotiationOutcome.sdpFailure "malformed SDP")).errorSurfaced
      = some "Failed to process offer: malformed SDP" ∧
    (processOffer "b1" (NegotiationOutcome.sdpFailure "malformed SDP")).newState
      = some ConnectionState.failed ∧
    (processOffer "b1" (NegotiationOutcome.sdpFailure "malformed SDP")).reconnectInvoked
      = false :=
  ⟨rfl, rfl, rfl⟩

/-- C6 (amended): whenever session negotiation fails while processing an
offer, the failure is surfaced to subscribers as an observable error string
and the connection state is set to `failed`, but no reconnect is performed;
no answer is sent and the heartbeat is not started. -/
theorem c6_amended (fromB m : String) :
    (processOffer fromB (NegotiationOutcome.sdpFailure m)).errorSurfaced
      = some ("Failed to process offer: " ++ m) ∧
    (processOffer fromB (NegotiationOutcome.sdpFailure m)).newState
      = some ConnectionState.failed ∧
    (processOffer fromB (NegotiationOutcome.sdpFailure m)).answerSent = false ∧
    (processOffer fromB (NegotiationOutcome.sdpFailure m)).heartbeatStarted = false ∧
    (processOffer fromB (NegotiationOutcome.sdpFailure m)).reconnectInvoked = false :=
  ⟨rfl, rfl, rfl, rfl, rfl⟩

theorem notifyAll_no_raise (subs : List (Nat × Bool)) (h : ∀ p ∈ subs, p.2 = false) :
    notifyAll subs = (subs.map Prod.fst, none) := by
  induction subs with
  | nil => rfl
  | cons p rest ih =>
      obtain ⟨j, rb⟩ := p
      have hb : rb = false := h (j, rb) (by simp)
      subst hb
      have hr := ih (fun q hq => h q (by simp [hq]))
      simp [notifyAll, hr]

theorem notifyAll_split (pre : List (Nat × Bool)) (i : Nat) (post : List (Nat × Bool))
    (h : ∀ p ∈ pre, p.2 = false) :
    notifyAll (pre ++ (i, true) :: post) = (pre.map Prod.fst ++ [i], some i) := by
  induction pre with
  | nil => simp [notifyAll]
  | cons p rest ih =>
      obtain ⟨j, rb⟩ := p
      have hb : rb = false := h (j, rb) (by simp)
      subst hb
      have hr := ih (fun q hq => h q (by simp [hq]))
      simp [notifyAll, hr]

/-- C7 counterexample: with two subscribers where the first callback throws,
`subscribers.forEach` invokes the first, the exception propagates, and the
second subscriber never receives the change — the exception is not isolated. -/
theorem c7_counterexample :
    notifyAll [(0, true), (1, false)] = ([0], some 0) ∧
    1 ∉ (notifyAll [(0, true), (1, false)]).1 := by
  refine ⟨rfl, by decide⟩

/-- C7 (amended): a change is delivered to subscribers in iteration order; when
no callback throws, every current subscriber receives it; when one callback
throws, the subscribers before it and the thrower are invoked and delivery to
every subscriber after it is prevented. -/
theorem c7_amended (subs pre post : List (Nat × Bool)) (i : Nat) :
    ((∀ p ∈ subs, p.2 = false) → notifyAll subs = (subs.map Prod.fst, none)) ∧
    ((∀ p ∈ pre, p.2 = false) → subs = pre ++ (i, true) :: post →
       notifyAll subs = (pre.map Prod.fst ++ [i], some i)) := by
  refine ⟨fun h => notifyAll_no_raise subs h, fun h1 h2 => ?_⟩
  subst h2
  exact notifyAll_split pre i post h1

/-- Witness for `c7_amended`: full delivery without throwers, truncated
delivery with a thrower in the middle. -/
theorem c7_amended_witness :
    notifyAll [(0, false), (1, false)] = ([0, 1], none) ∧
    notifyAll [(0, false), (1, true), (2, false)] = ([0, 1], some 1) :=
  ⟨(c7_amended [(0, false), (1, false)] [] [] 0).1 (by decide),
   (c7_amended [(0, false), (1, true), (2, false)] [(0, false)] [(2, false)] 1).2
     (by decide) rfl⟩

/-- C8 counterexample: a non-persistent entry with 3 accumulated reconnect
attempts goes through the teardown-then-recreate cycle of `reconnect()`; its
`cleanup` resets the counter to 0 even though no signaling link opened. -/
theorem c8_counterexample :
    (reconnectCycle false
      { reconnectAttempts := 3, connectionState := ConnectionState.disconnected
        error := none, broadcasterId := some "b1"
        localCandidateQueueLen := 0 }).reconnectAttempts = 0 ∧
    (0 : Nat) ≠ 3 :=
  ⟨rfl, by decide⟩

/-- C8 (amended): `reconnectAttempts` persists across the teardown-then-
recreate cycle only for persistent entries (whose `cleanup` is a no-op); for a
non-persistent entry the `cleanup` step of the cycle resets it to 0 without
any successful open; a signaling link that opens successfully also resets it
to 0 and sets the state to `connecting`. -/
theorem c8_amended (e : EntrySlice) :
    (reconnectCycle true e).reconnectAttempts = e.reconnectAttempts ∧
    (reconnectCycle false e).reconnectAttempts = 0 ∧
    cleanup true e = e ∧
    (cleanup false e).reconnectAttempts = 0 ∧
    (wsOnOpen e).reconnectAttempts = 0 ∧
    (wsOnOpen e).connectionState = ConnectionState.connecting :=
  ⟨rfl, rfl, rfl, rfl, rfl, rfl⟩

theorem runDebounceChecks_stable (k m : Nat) :
    runDebounceChecks { pcState := PcState.closedPc, mounted := true, reconnectRuns := k } m
      = { pcState := PcState.closedPc, mounted := true, reconnectRuns := k } := by
  induction m with
  | zero => rfl
  | succ m ih => simpa [runDebounceChecks, debounceCheck] using ih

/-- C9: a `failed` report from the peer connection sets the entry failed with
an error and schedules a guarded check after exactly 2000ms; when several such
checks are pending on the same (still `failed`) peer connection — as when the
event fires twice within 1s, so both timers are scheduled before either fires —
the first check invokes `reconnect()`, whose cleanup closes that peer
connection, and every later check sees state `closed` and does nothing:
exactly one reconnect results. -/
theorem c9_debounce (n : Nat) (hn : 1 ≤ n) :
    onConnectionStateChange true PcState.failedPc
      = { newState := some ConnectionState.failed
          newError := some (some "Connection failed")
          debounceDelay := some failedDebounceMs } ∧
    failedDebounceMs = 2000 ∧
    (runDebounceChecks
      { pcState := PcState.failedPc, mounted := true, reconnectRuns := 0 } n).reconnectRuns
      = 1 := by
  refine ⟨rfl, rfl, ?_⟩
  obtain ⟨m, rfl⟩ := Nat.exists_eq_add_of_le hn
  rw [Nat.add_comm 1 m]
  have h1 : debounceCheck { pcState := PcState.failedPc, mounted := true, reconnectRuns := 0 }
      = { pcState := PcState.closedPc, mounted := true, reconnectRuns := 1 } := by
    simp [debounceCheck]
  simp [runDebounceChecks, h1, runDebounceChecks_stable 1 m]

/-- Witness for `c9_debounce`: two pending checks yield one reconnect. -/
theorem c9_debounce_witness :
    (runDebounceChecks
      { pcState := PcState.failedPc, mounted := true, reconnectRuns := 0 } 2).reconnectRuns
      = 1 :=
  (c9_debounce 2 (by decide)).2.2

theorem flushLoop_mk {α : Type} (v b : String) (cs : List (Option α)) :
    flushLoop (some b) true (cs.map (mkIceMsg v none)) = cs.map (mkIceMsg v (some b)) := by
  induction cs with
  | nil => rfl
  | cons c rest ih =>
      show ({ mkIceMsg v none c with toId := some b }
          :: flushLoop (some b) true (List.map (mkIceMsg v none) rest)) = _
      rw [ih]
      rfl

theorem runViewer_preOffer {α : Type} (v : String) (cs : List (Option α)) (s : ViewerSt α)
    (h : s.broadcasterId = none) :
    runViewer v true s (cs.map ViewerEvent.localCandidate)
      = { broadcasterId := none
          localCandidateQueue := s.localCandidateQueue ++ cs.map (mkIceMsg v none)
          sent := s.sent } := by
  induction cs generalizing s with
  | nil =>
      obtain ⟨bid, q, st⟩ := s
      simp at h
      subst h
      simp [runViewer]
  | cons c rest ih =>
      have hstep : stepViewer v true s (ViewerEvent.localCandidate c)
          = { s with localCandidateQueue := s.localCandidateQueue ++ [mkIceMsg v none c] } := by
        simp [stepViewer, onIceCandidate, h]
      show runViewer v true (stepViewer v true s (ViewerEvent.localCandidate c))
            (List.map ViewerEvent.localCandidate rest) = _
      rw [hstep,
        ih { s with localCandidateQueue := s.localCandidateQueue ++ [mkIceMsg v none c] } h]
      simp [List.append_assoc]

theorem runViewer_postOffer {α : Type} (v b : String) (ds : List (Option α)) (s : ViewerSt α)
    (h : s.broadcasterId = some b) :
    runViewer v true s (ds.map ViewerEvent.localCandidate)
      = { broadcasterId := some b
          localCandidateQueue := s.localCandidateQueue
          sent := s.sent ++ ds.map (mkIceMsg v (some b)) } := by
  induction ds generalizing s with
  | nil =>
      obtain ⟨bid, q, st⟩ := s
      simp at h
      subst h
      simp [runViewer]
  | cons c rest ih =>
      have hstep : stepViewer v true s (ViewerEvent.localCandidate c)
          = { s with sent := s.sent ++ [mkIceMsg v (some b) c] } := by
        simp [stepViewer, onIceCandidate, h]
      show runViewer v true (stepViewer v true s (ViewerEvent.localCandidate c))
            (List.map ViewerEvent.localCandidate rest) = _
      rw [hstep, ih { s with sent := s.sent ++ [mkIceMsg v (some b) c] } h]
      simp [List.append_assoc]

/-- C3 counterexample: a candidate is buffered, then the offer arrives but its
negotiation fails on a malformed SDP.  `broadcasterId := from` was set at
line 671 (before the `try`), but the drain at lines 746-759 never ran: the
buffered candidate is still in the queue and was delivered zero times — not
exactly once — while the candidate generated after the offer bypasses the
queue and is sent directly. -/
theorem c3_counterexample :
    c3FailTrace.broadcasterId = some "b1" ∧
    c3FailTrace.localCandidateQueue = [mkIceMsg "v1" none (some 0)] ∧
    c3FailTrace.sent = [mkIceMsg "v1" (some "b1") (some 1)] ∧
    mkIceMsg "v1" (some "b1") (some 0) ∉ c3FailTrace.sent ∧
    mkIceMsg "v1" none (some 0) ∉ c3FailTrace.sent := by
  decide

/-- C3 (amended): with the signaling transport open, every local candidate
generated before the broadcaster id is known is appended to the FIFO queue and
nothing is sent.  When an offer arrives and its negotiation succeeds, the
entire queue is drained — after the awaited negotiation steps complete, not at
the instant of receipt — in original generation order, each message stamped
with the now-known `to`, each buffered candidate sent exactly once (the sent
list is exactly the stamped queue, and the queue is left empty).  When the
offer's negotiation fails, the remote id is still recorded but the queue is
never drained and no buffered candidate is delivered.  In both cases every
candidate generated after the offer bypasses the queue and is sent directly. -/
theorem c3_amended {α : Type} (v b e : String) (cs ds : List (Option α)) :
    runViewer v true (initViewer α) (List.map ViewerEvent.localCandidate cs)
      = { broadcasterId := none
          localCandidateQueue := List.map (mkIceMsg v none) cs
          sent := [] } ∧
    runViewer v true (initViewer α)
        (List.map ViewerEvent.localCandidate cs
          ++ ViewerEvent.offer b NegotiationOutcome.success
            :: List.map ViewerEvent.localCandidate ds)
      = { broadcasterId := some b
          localCandidateQueue := []
          sent := List.map (mkIceMsg v (some b)) cs ++ List.map (mkIceMsg v (some b)) ds } ∧
    runViewer v true (initViewer α)
        (List.map ViewerEvent.localCandidate cs
          ++ ViewerEvent.offer b (NegotiationOutcome.sdpFailure e)
            :: List.map ViewerEvent.localCandidate ds)
      = { broadcasterId := some b
          localCandidateQueue := List.map (mkIceMsg v none) cs
          sent := List.map (mkIceMsg v (some b)) ds } := by
  have hpre := runViewer_preOffer v cs (initViewer α) rfl
  have hpre2 : runViewer v true (initViewer α) (List.map ViewerEvent.localCandidate cs)
      = { broadcasterId := none
          localCandidateQueue := List.map (mkIceMsg v none) cs
          sent := ([] : List (IceMsg α)) } := by
    rw [hpre]; simp [initViewer]
  refine ⟨hpre2, ?_, ?_⟩
  · have hsplit : runViewer v true (initViewer α)
        (List.map ViewerEvent.localCandidate cs
          ++ ViewerEvent.offer b NegotiationOutcome.success
            :: List.map ViewerEvent.localCandidate ds)
        = runViewer v true
            (stepViewer v true
              (runViewer v true (initViewer α) (List.map ViewerEvent.localCandidate cs))
              (ViewerEvent.offer b NegotiationOutcome.success))
            (List.map ViewerEvent.localCandidate ds) := by
      simp [runViewer, List.foldl_append]
    rw [hsplit, hpre2]
    have hoff : stepViewer v true
        { broadcasterId := none
          localCandidateQueue := List.map (mkIceMsg v none) cs
          sent := ([] : List (IceMsg α)) } (ViewerEvent.offer b NegotiationOutcome.success)
        = { broadcasterId := some b
            localCandidateQueue := []
            sent := List.map (mkIceMsg v (some b)) cs } := by
      simp [stepViewer, onOffer, flushLoop_mk]
    rw [hoff, runViewer_postOffer v b ds _ rfl]
  · have hsplit : runViewer v true (initViewer α)
        (List.map ViewerEvent.localCandidate cs
          ++ ViewerEvent.offer b (NegotiationOutcome.sdpFailure e)
            :: List.map ViewerEvent.localCandidate ds)
        = runViewer v true
            (stepViewer v true
              (runViewer v true (initViewer α) (List.map ViewerEvent.localCandidate cs))
              (ViewerEvent.offer b (NegotiationOutcome.sdpFailure e)))
            (List.map ViewerEvent.localCandidate ds) := by
      simp [runViewer, List.foldl_append]
    rw [hsplit, hpre2]
    have hoff : stepViewer v true
        { broadcasterId := none
          localCandidateQueue := List.map (mkIceMsg v none) cs
          sent := ([] : List (IceMsg α)) } (ViewerEvent.offer b (NegotiationOutcome.sdpFailure e))
        = { broadcasterId := some b
            localCandidateQueue := List.map (mkIceMsg v none) cs
            sent := ([] : List (IceMsg α)) } := by
      simp [stepViewer, onOffer]
    rw [hoff, runViewer_postOffer v b ds _ rfl]
    simp

theorem get?_false_lt {l : List Bool} {i : Nat} (h : l.get? i = some false) : i < l.length := by
  rw [List.get?_eq_getElem?] at h
  exact (List.getElem?_eq_some.mp h).1

theorem closeEntryPc_no_false (m : ConnModel) (h : PcUnique m) (i : Nat) :
    (closeEntryPc m).get? i ≠ some false := by
  intro hi
  cases hm : m.entryPc with
  | none =>
      simp only [closeEntryPc, hm] at hi
      have h2 := h i hi
      rw [hm] at h2
      exact Option.noConfusion h2
  | some k =>
      simp only [closeEntryPc, hm] at hi
      by_cases hk : m.pcClosed.get? k = some false
      · rw [if_pos hk] at hi
        by_cases hik : i = k
        · subst hik
          rw [List.get?_set_eq_of_lt true (get?_false_lt hk)] at hi
          exact Bool.noConfusion (Option.some.inj hi)
        · rw [List.get?_set_ne true m.pcClosed fun hki => hik hki.symm] at hi
          have h2 := h i hi
          rw [hm] at h2
          exact hik (Option.some.inj h2).symm
      · rw [if_neg hk] at hi
        have h2 := h i hi
        rw [hm] at h2
        have hki : k = i := Option.some.inj h2
        subst hki
        exact hk hi

theorem pcUnique_create (m : ConnModel) (h : PcUnique m) :
    PcUnique (createPeerConnection m) := by
  intro i hi
  simp only [createPeerConnection] at hi ⊢
  rcases Nat.lt_trichotomy i (closeEntryPc m).length with hlt | heq | hgt
  · rw [List.get?_append hlt] at hi
    exact absurd hi (closeEntryPc_no_false m h i)
  · rw [heq]
  · have hnone : (closeEntryPc m ++ [false]).get? i = none :=
      List.get?_len_le (by simp [List.length_append]; omega)
    rw [hnone] at hi
    exact Option.noConfusion hi

theorem pcUnique_teardown (m : ConnModel) (h : PcUnique m) :
    PcUnique (stepConn m ConnEvent.teardown) := by
  intro i hi
  simp only [stepConn] at hi ⊢
  exact absurd hi (closeEntryPc_no_false m h i)

theorem pcUnique_step (m : ConnModel) (e : ConnEvent) (h : PcUnique m) :
    PcUnique (stepConn m e) := by
  cases e with
  | createPc => exact pcUnique_create m h
  | connectWs =>
      intro i hi
      simp only [stepConn, connectSignaling] at hi ⊢
      by_cases hc : entrySockStatus m = some SockStatus.opened
      · rw [if_pos hc] at hi ⊢
        exact h i hi
      · rw [if_neg hc] at hi ⊢
        exact h i hi
  | wsOpened j =>
      intro i hi
      simp only [stepConn] at hi ⊢
      by_cases hc : m.socks.get? j = some SockStatus.connecting
      · rw [if_pos hc] at hi ⊢
        exact h i hi
      · rw [if_neg hc] at hi ⊢
        exact h i hi
  | wsClosed j =>
      intro i hi
      exact h i hi
  | teardown => exact pcUnique_teardown m h

theorem pcUnique_runConn (es : List ConnEvent) : PcUnique (runConn es) := by
  have hgen : ∀ (l : List ConnEvent) (m : ConnModel), PcUnique m → PcUnique (l.foldl stepConn m) := by
    intro l
    induction l with
    | nil => exact fun m hm => hm
    | cons e rest ih => exact fun m hm => ih (stepConn m e) (pcUnique_step m e hm)
  refine hgen es initConn ?_
  intro i hi
  exact Option.noConfusion hi

/-- C1 counterexample: `connectSignaling` is invoked again while the entry's
first socket is still in the connecting state (e.g. the main effect runs again
on a remount before `ws.onopen` fired).  A second socket is created for the
entry although the entry already has one, the superseded socket is not closed
(it is still `connecting` afterwards), and once both handshakes complete two
open signaling links exist simultaneously for this entry's stream. -/
theorem c1_counterexample :
    c1Trace0.entrySock = some 0 ∧
    c1Trace0.socks.get? 0 = some SockStatus.connecting ∧
    c1Trace1.entrySock = some 1 ∧
    c1Trace1.socks.get? 0 = some SockStatus.connecting ∧
    (c1Trace2.socks.filter fun s => decide (s = SockStatus.opened)).length = 2 := by
  decide

/-- C1 (amended): at every reachable instant the entry references at most one
non-closed peer session — `createPeerConnection` closes the old non-closed
session before creating the new one, and `cleanup` closes it on teardown — so
any two non-closed peer connections of the entry coincide; and a new signaling
link is created only when the entry's current link is absent or not open
(`connectSignaling` is the identity on an entry whose link is open), but the
superseded link is not closed first, so a link that was still connecting when
replaced may later be open concurrently with its replacement. -/
theorem c1_amended (es : List ConnEvent) :
    (∀ i j, (runConn es).pcClosed.get? i = some false →
            (runConn es).pcClosed.get? j = some false → i = j) ∧
    (∀ m : ConnModel, entrySockStatus m = some SockStatus.opened → connectSignaling m = m) := by
  constructor
  · intro i j hi hj
    have h1 := pcUnique_runConn es i hi
    have h2 := pcUnique_runConn es j hj
    rw [h1] at h2
    exact Option.some.inj h2
  · intro m hm
    unfold connectSignaling
    rw [if_pos hm]

/-- Witness for `c1_amended`: after two `createPeerConnection` calls only the
second peer connection is non-closed, and `connectSignaling` does not replace
an open link. -/
theorem c1_amended_witness :
    (runConn [ConnEvent.createPc, ConnEvent.createPc]).pcClosed.get? 1 = some false ∧
    (1 : Nat) = 1 ∧
    connectSignaling c1OpenModel = c1OpenModel :=
  ⟨by decide,
   (c1_amended [ConnEvent.createPc, ConnEvent.createPc]).1 1 1 (by decide) (by decide),
   (c1_amended []).2 c1OpenModel (by decide)⟩

/-- C4 counterexample: the signaling socket closes six times (initial
connection plus all five retries), reaching state `failed` with the
max-attempts error and zero `reconnect()` runs; afterwards the still-live peer
connection reports `disconnected` then `failed`, and when its debounced check
fires, `reconnect()` executes automatically — one reconnect run without any
`explicitReconnect` in the trace. -/
theorem c4_counterexample :
    (c4Prefix.foldl stepSys initSys).connState = ConnectionState.failed ∧
    (c4Prefix.foldl stepSys initSys).error = some "Max reconnection attempts reached" ∧
    (c4Prefix.foldl stepSys initSys).reconnectAttempts = maxReconnectAttempts ∧
    (c4Prefix.foldl stepSys initSys).reconnectRuns = 0 ∧
    (c4Full.foldl stepSys initSys).reconnectRuns = 1 ∧
    Happening.explicitReconnect ∉ c4Full := by
  decide

theorem maxedOut_step (s : SysState) (h : MaxedOut s) (e : Happening)
    (he : e = Happening.wsClose ∨ e = Happening.wsRetryFires) :
    MaxedOut (stepSys s e) ∧ (stepSys s e).reconnectRuns = s.reconnectRuns := by
  obtain ⟨h1, h2, h3, h4, h5⟩ := h
  rcases he with rfl | rfl
  · have hnl : ¬ s.reconnectAttempts < maxReconnectAttempts := by
      rw [h1]
      exact Nat.lt_irrefl _
    simp only [stepSys]
    rw [if_neg hnl]
    exact ⟨⟨h1, rfl, rfl, h4, h5⟩, rfl⟩
  · have hnp : ¬ s.wsRetryPending = true := by
      rw [h4]
      exact Bool.false_ne_true
    simp only [stepSys]
    rw [if_neg hnp]
    exact ⟨⟨h1, h2, h3, h4, h5⟩, rfl⟩

theorem maxedOut_foldl (hs : List Happening) (s : SysState) (h : MaxedOut s)
    (hall : ∀ e ∈ hs, e = Happening.wsClose ∨ e = Happening.wsRetryFires) :
    MaxedOut (hs.foldl stepSys s) ∧ (hs.foldl stepSys s).reconnectRuns = s.reconnectRuns := by
  induction hs generalizing s with
  | nil => exact ⟨h, rfl⟩
  | cons e rest ih =>
      have hstep := maxedOut_step s h e (hall e (by simp))
      have hrest := ih (stepSys s e) hstep.1 (fun x hx => hall x (by simp [hx]))
      rw [List.foldl_cons]
      exact ⟨hrest.1, by rw [hrest.2, hstep.2]⟩

/-- C4 (amended): after 5 consecutive failed reconnect attempts the state is
`failed` with an observable error, and no signaling-level happening (further
closes, stale retry timers) ever runs a reconnect or leaves the failed state —
the only signaling-level resumption is an explicit `reconnect()` call, which
resets the attempt counter and re-enters `connecting`.  However, a debounced
peer-connection state-change check pending in the same entry can still invoke
`reconnect()` automatically after that point (see the counterexample), so the
guarantee holds only in the absence of peer-session state-change events. -/
theorem c4_amended (s : SysState) (h : MaxedOut s) (hs : List Happening)
    (hall : ∀ e ∈ hs, e = Happening.wsClose ∨ e = Happening.wsRetryFires) :
    (hs.foldl stepSys s).reconnectRuns = s.reconnectRuns ∧
    (hs.foldl stepSys s).connState = ConnectionState.failed ∧
    (hs.foldl stepSys s).error = some "Max reconnection attempts reached" ∧
    (stepSys s Happening.explicitReconnect).connState = ConnectionState.connecting ∧
    (stepSys s Happening.explicitReconnect).reconnectAttempts = 0 ∧
    (stepSys s Happening.explicitReconnect).reconnectRuns = s.reconnectRuns + 1 := by
  have hm := maxedOut_foldl hs s h hall
  exact ⟨hm.2, hm.1.2.1, hm.1.2.2.1, rfl, rfl, rfl⟩

/-- Witness for `c4_amended` on a concrete terminal failed state. -/
theorem c4_amended_witness :
    ([Happening.wsClose, Happening.wsRetryFires].foldl stepSys c4MaxedState).reconnectRuns
      = c4MaxedState.reconnectRuns ∧
    (stepSys c4MaxedState Happening.explicitReconnect).connState
      = ConnectionState.connecting :=
  ⟨(c4_amended c4MaxedState ⟨rfl, rfl, rfl, rfl, rfl⟩
      [Happening.wsClose, Happening.wsRetryFires] (by decide)).1,
   (c4_amended c4MaxedState ⟨rfl, rfl, rfl, rfl, rfl⟩ [] (by decide)).2.2.2.1⟩

end VisionWebUI
